import Mathlib

/-!
Shallow embedding of the simulation core of the `trading_bot` repository
(indicators.py, strategy.py, risk_manager.py, backtester.py), together with
theorems settling the specification claims about it.

Modelling conventions:
- Python floats are modelled as exact rationals (ℚ).
- `datetime` values are modelled by their calendar date alone (an integer),
  because the core only ever inspects `.date()` of a timestamp.
- `date.today()` (the wall clock) is an ambient input of the Python code; it is
  threaded through the embedding as an explicit `today : ℤ` argument.
- Python exceptions (float division by zero, out-of-bounds `iloc`) are
  modelled by `Option`: `none` means the Python code raises.
-/

namespace TradingBot

/-! ### Configuration constants (config.py) -/

def EMA_SHORT : Nat := 20
def EMA_LONG : Nat := 50
def ENTRY_PRICE_TOLERANCE : ℚ := 1/100
/-- RISK_REWARD_RATIO in config.py (2:1 reward to risk). -/
def RISK_REWARD : ℚ := 2
def TRAILING_STOP_PERCENT : ℚ := 1/100
def RISK_PER_TRADE : ℚ := 1/100
def MAX_POSITIONS : Nat := 3
def MAX_DAILY_LOSS : ℚ := 3/100
def INITIAL_BALANCE : ℚ := 10000

/-! ### Indicators (indicators.py) -/

/-- Smoothing factor of an EMA of the given span: 2/(period+1). -/
def smoothing (period : Nat) : ℚ := 2 / ((period : ℚ) + 1)

/-- Recurrence of `pandas` `Series.ewm(span=period, adjust=False).mean()`:
each output is s*x + (1-s)*previous output. -/
def emaAux (s : ℚ) : ℚ → List ℚ → List ℚ
  | _, [] => []
  | prev, x :: xs =>
    (s * x + (1 - s) * prev) :: emaAux s (s * x + (1 - s) * prev) xs

/-- Indicators.calculate_ema: `data.ewm(span=period, adjust=False).mean()`,
seeded by the first value. -/
def calculate_ema (data : List ℚ) (period : Nat) : List ℚ :=
  match data with
  | [] => []
  | x :: xs => x :: emaAux (smoothing period) x xs

/-- Indicators.is_uptrend: strict greater-than. -/
def is_uptrend (ema_short ema_long : ℚ) : Bool :=
  decide (ema_long < ema_short)

/-- Indicators.is_price_near_ema: lower_bound <= price <= upper_bound with
bounds ema*(1-tolerance) and ema*(1+tolerance). -/
def is_price_near_ema (price ema tolerance : ℚ) : Bool :=
  decide (ema * (1 - tolerance) ≤ price ∧ price ≤ ema * (1 + tolerance))

/-- Indicators.find_swing_low: minimum of the `low` column over the last
min(lookback, len) rows.  On an empty frame `pandas` yields NaN; that case is
modelled as `none` (no claim depends on it). -/
def find_swing_low (lows : List ℚ) (lookback : Nat) : Option ℚ :=
  let lb := min lookback lows.length
  (lows.drop (lows.length - lb)).min?

/-! ### Position (strategy.py) -/

structure Position where
  entry_price : ℚ
  quantity : ℚ
  stop_loss : ℚ
  take_profit : ℚ
  entry_time : ℤ
  trailing_stop_active : Bool
  highest_price : ℚ
deriving DecidableEq, Repr

/-- Position.__init__: trailing stop starts inactive, high-water mark starts
at the entry price. -/
def Position.mk0 (entry_price quantity stop_loss take_profit : ℚ)
    (entry_time : ℤ) : Position :=
  ⟨entry_price, quantity, stop_loss, take_profit, entry_time, false, entry_price⟩

/-- Position.update_trailing_stop: a no-op unless current_price > entry_price;
otherwise activate the trailing stop, raise the high-water mark, and set
stop_loss to max(stop_loss, highest_price*(1-trailing_percent)). -/
def Position.update_trailing_stop (p : Position) (current_price : ℚ)
    (trailing_percent : ℚ) : Position :=
  if p.entry_price < current_price then
    let hp := max p.highest_price current_price
    { p with
      trailing_stop_active := true
      highest_price := hp
      stop_loss := max p.stop_loss (hp * (1 - trailing_percent)) }
  else p

/-- Position.should_exit: stop-loss check first, then take-profit. -/
def Position.should_exit (p : Position) (current_price : ℚ) : Bool × String :=
  if current_price ≤ p.stop_loss then (true, "Stop Loss")
  else if p.take_profit ≤ current_price then (true, "Take Profit")
  else (false, "")

/-- Position.get_pnl: (current_price - entry_price) * quantity. -/
def Position.get_pnl (p : Position) (current_price : ℚ) : ℚ :=
  (current_price - p.entry_price) * p.quantity

/-! ### Risk manager (risk_manager.py) -/

structure RiskManager where
  initial_balance : ℚ
  current_balance : ℚ
  daily_start_balance : ℚ
  daily_pnl : ℚ
  current_date : ℤ
  trading_halted : Bool
  halt_reason : String
deriving DecidableEq, Repr

/-- RiskManager.__init__; `current_date = date.today()` is the wall-clock date
at construction time, passed explicitly. -/
def RiskManager.init (initial_balance : ℚ) (today : ℤ) : RiskManager :=
  ⟨initial_balance, initial_balance, initial_balance, 0, today, false, ""⟩

/-- RiskManager.reset_daily_tracking.  Note: the source sets
`self.current_date = date.today()` — the wall-clock date, not the date of the
timestamp that triggered the reset. -/
def RiskManager.reset_daily_tracking (rm : RiskManager) (today : ℤ) :
    RiskManager :=
  { rm with
    current_date := today
    daily_start_balance := rm.current_balance
    daily_pnl := 0
    trading_halted := false
    halt_reason := "" }

/-- RiskManager.check_daily_loss_limit.  The source computes
`daily_pnl / daily_start_balance` with float division, which raises
ZeroDivisionError when `daily_start_balance` is 0.0 — modelled as `none`.
The formatted percentage in the Python halt message is elided. -/
def RiskManager.check_daily_loss_limit (rm : RiskManager) :
    Option (RiskManager × Bool) :=
  if rm.daily_start_balance = 0 then none
  else
    let daily_loss_percent := rm.daily_pnl / rm.daily_start_balance
    if daily_loss_percent ≤ -MAX_DAILY_LOSS then
      some ({ rm with
              trading_halted := true
              halt_reason := "Daily loss limit reached" }, true)
    else some (rm, false)

/-- RiskManager.update_balance: lazily reset daily tracking when the update's
timestamp date differs from the stored date, then apply the pnl and re-check
the daily loss limit. -/
def RiskManager.update_balance (rm : RiskManager) (pnl : ℚ)
    (time_date today : ℤ) : Option RiskManager :=
  let rm1 := if time_date ≠ rm.current_date then rm.reset_daily_tracking today
             else rm
  let rm2 := { rm1 with
               current_balance := rm1.current_balance + pnl
               daily_pnl := rm1.daily_pnl + pnl }
  rm2.check_daily_loss_limit.map Prod.fst

/-- RiskManager.can_trade. -/
def RiskManager.can_trade (rm : RiskManager) : Bool × String :=
  if rm.trading_halted then (false, rm.halt_reason)
  else if rm.current_balance ≤ 0 then (false, "Account balance depleted")
  else (true, "")

/-! ### Trading strategy (strategy.py) -/

/-- One closed-trade record as appended to the trade log.  `pnl_percent`
divides by entry_price*quantity, which is nonzero for every position the
strategy creates (open_position refuses quantity <= 0 and a zero entry price
forces a zero price distance, which is also refused). -/
structure ClosedTrade where
  entry_price : ℚ
  exit_price : ℚ
  quantity : ℚ
  pnl : ℚ
  pnl_percent : ℚ
  entry_time : ℤ
  exit_time : ℤ
  exit_reason : String
deriving DecidableEq, Repr

/-- The closed-position dictionary built at closure time (strategy.py
update_positions and backtester.py run share this shape). -/
def closeRecord (p : Position) (exit_price : ℚ) (exit_time : ℤ)
    (exit_reason : String) : ClosedTrade :=
  let pnl := p.get_pnl exit_price
  ⟨p.entry_price, exit_price, p.quantity, pnl,
   pnl / (p.entry_price * p.quantity) * 100, p.entry_time, exit_time,
   exit_reason⟩

/-- TradingStrategy.can_open_position. -/
def can_open_position (positions : List Position) : Bool :=
  decide (positions.length < MAX_POSITIONS)

/-- TradingStrategy.calculate_position_size. -/
def calculate_position_size (entry_price stop_loss account_balance
    risk_percent : ℚ) : ℚ :=
  let risk_amount := account_balance * risk_percent
  let price_diff := |entry_price - stop_loss|
  if price_diff = 0 then 0 else risk_amount / price_diff

/-- TradingStrategy.open_position, acting on the strategy's open-position
list.  `lows` is the `low` column of the history frame.  Returns the opened
position (if any) and the updated open-position list.  The empty-history case
(where pandas would propagate NaN) is modelled as refusing to open. -/
def open_position (positions : List Position)
    (entry_price account_balance risk_percent : ℚ) (lows : List ℚ)
    (entry_time : ℤ) : Option Position × List Position :=
  if can_open_position positions then
    match find_swing_low lows 10 with
    | none => (none, positions)
    | some sw =>
      let stop_loss := if entry_price ≤ sw then entry_price * (98/100) else sw
      let risk := entry_price - stop_loss
      let take_profit := entry_price + risk * RISK_REWARD
      let quantity :=
        calculate_position_size entry_price stop_loss account_balance
          risk_percent
      if quantity ≤ 0 then (none, positions)
      else
        let p := Position.mk0 entry_price quantity stop_loss take_profit
          entry_time
        (some p, positions ++ [p])
  else (none, positions)

/-- TradingStrategy.update_positions: trailing-stop update then exit test for
each open position, in order; closed trades and surviving positions keep
their relative order. -/
def update_positions (current_price : ℚ) (current_time : ℤ) :
    List Position → List ClosedTrade × List Position
  | [] => ([], [])
  | p :: ps =>
    let p1 := p.update_trailing_stop current_price TRAILING_STOP_PERCENT
    let rest := update_positions current_price current_time ps
    if (p1.should_exit current_price).1 then
      (closeRecord p1 current_price current_time
        (p1.should_exit current_price).2 :: rest.1, rest.2)
    else (rest.1, p1 :: rest.2)

/-! ### Backtester (backtester.py) -/

/-- A raw input candle; the core loop only reads `timestamp` (its calendar
date), `low` and `close`, so only those are modelled. -/
structure Candle where
  timestamp : ℤ
  low : ℚ
  close : ℚ
deriving DecidableEq, Repr

/-- A candle with the two EMA columns attached (Indicators.add_emas). -/
structure CandleE where
  timestamp : ℤ
  low : ℚ
  close : ℚ
  ema_short : ℚ
  ema_long : ℚ
deriving DecidableEq, Repr

/-- Zip candles with the two EMA series. -/
def zipE : List Candle → List ℚ → List ℚ → List CandleE
  | c :: cs, a :: es, b :: el => ⟨c.timestamp, c.low, c.close, a, b⟩ ::
      zipE cs es el
  | _, _, _ => []

/-- Indicators.add_emas over the candle list. -/
def add_emas (data : List Candle) : List CandleE :=
  zipE data (calculate_ema (data.map Candle.close) EMA_SHORT)
    (calculate_ema (data.map Candle.close) EMA_LONG)

/-- TradingStrategy.check_entry_signal on the history frame. -/
def check_entry_signal (hist : List CandleE) : Bool :=
  if hist.length < EMA_LONG then false
  else
    match hist.getLast? with
    | none => false
    | some c =>
      is_uptrend c.ema_short c.ema_long &&
        is_price_near_ema c.close c.ema_short ENTRY_PRICE_TOLERANCE

/-- Mutable state of one backtest run: the strategy's open positions, the
trade log, the equity curve and the risk manager. -/
structure BTState where
  positions : List Position
  trades_log : List ClosedTrade
  equity_curve : List ℚ
  rm : RiskManager
deriving DecidableEq, Repr

/-- Report each closed position of a tick to RiskManager.update_balance, in
closed order; `none` when an update raises. -/
def settleClosed (time_date today : ℤ) :
    RiskManager → List ClosedTrade → Option RiskManager
  | rm, [] => some rm
  | rm, cp :: cps =>
    (rm.update_balance cp.pnl time_date today).bind fun rm1 =>
      settleClosed time_date today rm1 cps

/-- One iteration of the Backtester.run loop at index `i`: update positions,
settle closed trades with the risk manager, append them to the trade log,
possibly open a new position, then append the balance to the equity curve. -/
def runTick (data : List CandleE) (today : ℤ) (st : BTState) (i : Nat) :
    Option BTState :=
  match data.get? i with
  | none => none
  | some c =>
    let current_price := c.close
    let current_time := c.timestamp
    let hist := data.take (i + 1)
    let ur := update_positions current_price current_time st.positions
    match settleClosed current_time today st.rm ur.1 with
    | none => none
    | some rm1 =>
      let positions1 :=
        if (rm1.can_trade).1 && decide (EMA_LONG ≤ i) &&
            check_entry_signal hist then
          (open_position ur.2 current_price rm1.current_balance RISK_PER_TRADE
            (hist.map CandleE.low) current_time).2
        else ur.2
      some { positions := positions1
             trades_log := st.trades_log ++ ur.1
             equity_curve := st.equity_curve ++ [rm1.current_balance]
             rm := rm1 }

/-- The per-index loop of Backtester.run. -/
def runLoopAux (data : List CandleE) (today : ℤ) :
    BTState → List Nat → Option BTState
  | st, [] => some st
  | st, i :: is =>
    match runTick data today st i with
    | none => none
    | some st1 => runLoopAux data today st1 is

/-- The loop of Backtester.run over all candle indices, from the freshly
constructed strategy/risk-manager state. -/
def runLoop (data : List CandleE) (initial_balance : ℚ) (today : ℤ) :
    Option BTState :=
  runLoopAux data today ⟨[], [], [], RiskManager.init initial_balance today⟩
    (List.range data.length)

/-! ### Performance metrics (backtester.py) -/

/-- The metrics dictionary.  In the empty-log case the Python dict omits the
winning/losing/initial/total_pnl keys; they are 0 (resp. the initial balance)
here. -/
structure Metrics where
  total_trades : Nat
  winning_trades : Nat
  losing_trades : Nat
  win_rate : ℚ
  profit_factor : ℚ
  max_drawdown : ℚ
  initial_balance : ℚ
  final_balance : ℚ
  total_return : ℚ
  avg_win : ℚ
  avg_loss : ℚ
  total_pnl : ℚ
deriving DecidableEq, Repr

/-- Prefix maxima, seeded with the running maximum so far
(numpy maximum.accumulate). -/
def runningMax : ℚ → List ℚ → List ℚ
  | _, [] => []
  | m, x :: xs =>
    let m1 := max m x
    m1 :: runningMax m1 xs

/-- Backtester.calculate_max_drawdown.  numpy float division never raises, so
this is total; a zero running maximum (impossible in the claims exercised
here) yields 0 in ℚ where numpy would yield inf/nan. -/
def calculate_max_drawdown (equity_curve : List ℚ) : ℚ :=
  match equity_curve with
  | [] => 0
  | e :: es =>
    let dd := List.zipWith (fun x m => (x - m) / m * 100) (e :: es)
      (runningMax e (e :: es))
    |(dd.min?.getD 0)|

/-- Backtester.calculate_performance_metrics, abstracted over the trade log,
the equity curve, the risk manager's current balance and the initial
balance. -/
def calculate_performance_metrics (trades_log : List ClosedTrade)
    (equity_curve : List ℚ) (current_balance initial_balance : ℚ) : Metrics :=
  if trades_log.isEmpty then
    { total_trades := 0, winning_trades := 0, losing_trades := 0
      win_rate := 0, profit_factor := 0, max_drawdown := 0
      initial_balance := initial_balance, final_balance := initial_balance
      total_return := 0, avg_win := 0, avg_loss := 0, total_pnl := 0 }
  else
    let winning := trades_log.filter fun t => decide (0 < t.pnl)
    let losing := trades_log.filter fun t => decide (t.pnl ≤ 0)
    let total_trades := trades_log.length
    let win_rate :=
      if 0 < total_trades then ((winning.length : ℚ) / total_trades) * 100
      else 0
    let total_wins := (winning.map ClosedTrade.pnl).sum
    let total_losses := |(losing.map ClosedTrade.pnl).sum|
    let profit_factor :=
      if 0 < total_losses then total_wins / total_losses else 0
    let avg_win := if winning.isEmpty then 0
      else total_wins / (winning.length : ℚ)
    let avg_loss := if losing.isEmpty then 0
      else total_losses / (losing.length : ℚ)
    { total_trades := total_trades
      winning_trades := winning.length
      losing_trades := losing.length
      win_rate := win_rate
      profit_factor := profit_factor
      max_drawdown := calculate_max_drawdown equity_curve
      initial_balance := initial_balance
      final_balance := current_balance
      total_return :=
        (current_balance - initial_balance) / initial_balance * 100
      avg_win := avg_win
      avg_loss := avg_loss
      total_pnl := current_balance - initial_balance }

/-- What Backtester.run returns, together with the mutated fields it leaves
behind on the object. -/
structure FinalResult where
  metrics : Metrics
  equity_curve : List ℚ
  trades_log : List ClosedTrade
  rm : RiskManager
deriving DecidableEq, Repr

/-- Force-close every remaining position at the final price (in open order),
reporting each to the risk manager and appending to the log. -/
def closeRemaining (final_price : ℚ) (final_time today : ℤ) :
    RiskManager → List ClosedTrade → List Position →
    Option (RiskManager × List ClosedTrade)
  | rm, log, [] => some (rm, log)
  | rm, log, p :: ps =>
    let cp := closeRecord p final_price final_time "Backtest End"
    (rm.update_balance cp.pnl final_time today).bind fun rm1 =>
      closeRemaining final_price final_time today rm1 (log ++ [cp]) ps

/-- The tail of Backtester.run after the loop: read the final candle
(`data.iloc[-1]` — raises IndexError on empty data, modelled as `none`),
force-close outstanding positions, and compute the metrics. -/
def finalize (data : List CandleE) (initial_balance : ℚ) (today : ℤ)
    (st : BTState) : Option FinalResult :=
  match data.getLast? with
  | none => none
  | some last =>
    (closeRemaining last.close last.timestamp today st.rm st.trades_log
      st.positions).map fun res =>
      { metrics := calculate_performance_metrics res.2 st.equity_curve
          res.1.current_balance initial_balance
        equity_curve := st.equity_curve
        trades_log := res.2
        rm := res.1 }

/-- Backtester.run: attach EMAs, run the per-candle loop, then finalize. -/
def run (data : List Candle) (initial_balance : ℚ) (today : ℤ) :
    Option FinalResult :=
  let dataE := add_emas data
  (runLoop dataE initial_balance today).bind
    (finalize dataE initial_balance today)

/-! ### Claim C1: daily reset / halt persistence -/

/-- C1: the claim that the daily reset occurs only on the first
`update_balance` whose timestamp date differs from the stored `current_date`,
and that a halt persists across later same-date updates, is false on the
code: `reset_daily_tracking` stores the wall-clock `date.today()` rather than
the update's timestamp date.  Concretely, with wall-clock date 100, an update
timestamped on date 5 loses 4% and halts trading, and a second update on the
very same calendar date 5 resets daily tracking again and clears the halt. -/
theorem c1_halt_cleared_by_same_date_update :
    ((RiskManager.init 10000 100).update_balance (-400) 5 100).map
        (fun rm => rm.trading_halted) = some true ∧
    (((RiskManager.init 10000 100).update_balance (-400) 5 100).bind
        (fun rm => rm.update_balance 0 5 100)).map
        (fun rm => rm.trading_halted) = some false := by
  norm_num [RiskManager.init, RiskManager.update_balance,
    RiskManager.reset_daily_tracking, RiskManager.check_daily_loss_limit,
    MAX_DAILY_LOSS]

/-! ### Claim C2: empty candle sequence -/

/-- C2: the claim that `Backtester.run` on the empty candle sequence returns
the empty-log metrics is false on the code: the loop indeed performs zero
ticks, but the epilogue unconditionally reads `self.data.iloc[-1]`, which
raises IndexError on an empty frame (modelled as `none`). -/
theorem c2_run_on_empty_raises :
    run [] 10000 0 = none := by
  rfl

/-! ### Claim C3: is_price_near_ema at the centre and boundaries -/

/-- C3 counterexample: for a negative ema the claim fails: with ema = -1 and
tolerance 1/2 the bounds invert (lower bound -1/2, upper bound -3/2) and even
the centre price ema itself is rejected. -/
theorem c3_counterexample_negative_ema :
    is_price_near_ema (-1) (-1) (1/2) = false := by
  norm_num [is_price_near_ema]

/-- C3 (amended): for every nonnegative ema and every tolerance t >= 0, the
centre price ema and both boundary prices ema*(1-t) and ema*(1+t) are
accepted (boundary-inclusive on both sides). -/
theorem c3_centre_and_boundaries_accepted (ema t : ℚ) (hema : 0 ≤ ema)
    (ht : 0 ≤ t) :
    is_price_near_ema ema ema t = true ∧
    is_price_near_ema (ema * (1 - t)) ema t = true ∧
    is_price_near_ema (ema * (1 + t)) ema t = true := by
  have hmul : 0 ≤ ema * t := mul_nonneg hema ht
  simp only [is_price_near_ema, decide_eq_true_eq]
  refine ⟨⟨?_, ?_⟩, ⟨?_, ?_⟩, ⟨?_, ?_⟩⟩ <;> nlinarith

/-- C3 witness: the amended theorem evaluated at ema = 2, t = 1/2. -/
theorem c3_witness :
    is_price_near_ema 2 2 (1/2) = true ∧
    is_price_near_ema (2 * (1 - 1/2)) 2 (1/2) = true ∧
    is_price_near_ema (2 * (1 + 1/2)) 2 (1/2) = true :=
  c3_centre_and_boundaries_accepted 2 (1/2) (by norm_num) (by norm_num)

/-! ### Claim C4: no unhandled fault in the core -/

/-- C4: the claim that RiskManager.update_balance's daily-loss check is
always well-defined is false on the code: losing the whole balance and then
updating on a later calendar date snapshots daily_start_balance = 0, and
check_daily_loss_limit then divides daily_pnl by zero (ZeroDivisionError,
modelled as `none`). -/
theorem c4_daily_loss_check_divides_by_zero :
    (((RiskManager.init 10000 100).update_balance (-10000) 100 100).bind
      (fun rm => rm.update_balance (-5) 101 101)) = none := by
  norm_num [RiskManager.init, RiskManager.update_balance,
    RiskManager.reset_daily_tracking, RiskManager.check_daily_loss_limit,
    MAX_DAILY_LOSS]

/-! ### Claim C5: trailing stop never retreats -/

/-- C5: for every position state, every price and every trailing percentage,
one call to update_trailing_stop leaves the stop loss greater than or equal
to what it was; hence along any sequence of calls the stop only ratchets
upward. -/
theorem c5_trailing_stop_monotone (p : Position) (current_price
    trailing_percent : ℚ) :
    p.stop_loss ≤
      (p.update_trailing_stop current_price trailing_percent).stop_loss := by
  unfold Position.update_trailing_stop
  split
  · exact le_max_left _ _
  · exact le_refl _

/-! ### Claim C6: exit decision and tie-break -/

/-- C6: should_exit returns (true, "Stop Loss") whenever the price is at or
below the stop loss (in particular when the take-profit condition holds
simultaneously — the stop-loss reason wins the tie-break), (true, "Take
Profit") when only the take-profit condition holds, and (false, "")
otherwise. -/
theorem c6_should_exit_cases (p : Position) (current_price : ℚ) :
    (current_price ≤ p.stop_loss →
      p.should_exit current_price = (true, "Stop Loss")) ∧
    (¬ current_price ≤ p.stop_loss → p.take_profit ≤ current_price →
      p.should_exit current_price = (true, "Take Profit")) ∧
    (¬ current_price ≤ p.stop_loss → ¬ p.take_profit ≤ current_price →
      p.should_exit current_price = (false, "")) := by
  refine ⟨fun h1 => ?_, fun h1 h2 => ?_, fun h1 h2 => ?_⟩
  · simp [Position.should_exit, h1]
  · simp [Position.should_exit, h1, h2]
  · simp [Position.should_exit, h1, h2]

/-- The position of the repository's own Position test (entry 50000, quantity
0.1, stop loss 49000, take profit 52000). -/
def c6_pos : Position := Position.mk0 50000 (1/10) 49000 52000 0

/-- C6 witness: at price 48900 the stop-loss branch fires. -/
theorem c6_witness : c6_pos.should_exit 48900 = (true, "Stop Loss") :=
  (c6_should_exit_cases c6_pos 48900).1 (by norm_num [c6_pos, Position.mk0])

/-! ### Claim C7: the EMA recurrence -/

lemma emaAux_length (s : ℚ) (l : List ℚ) :
    ∀ prev, (emaAux s prev l).length = l.length := by
  induction l with
  | nil => intro prev; rfl
  | cons x xs ih => intro prev; simp [emaAux, ih]

lemma calculate_ema_length (data : List ℚ) (period : Nat) :
    (calculate_ema data period).length = data.length := by
  cases data <;> simp [calculate_ema, emaAux_length]

lemma emaAux_getD (s : ℚ) (l : List ℚ) :
    ∀ (prev : ℚ) (i : Nat), i + 1 < l.length →
      (emaAux s prev l).getD (i + 1) 0 =
        s * l.getD (i + 1) 0 + (1 - s) * (emaAux s prev l).getD i 0 := by
  induction l with
  | nil => intro prev i h; simp at h
  | cons x xs ih =>
    intro prev i h
    cases i with
    | zero =>
      cases xs with
      | nil => simp at h
      | cons y ys => simp [emaAux]
    | succ j =>
      have hj : j + 1 < xs.length := by simp at h; omega
      simp only [emaAux, List.getD_cons_succ]
      exact ih (s * x + (1 - s) * prev) j hj

/-- C7: for a non-empty price series and positive period, calculate_ema has
the same length as the input, starts at the first price, and satisfies
value[i+1] = s*price[i+1] + (1-s)*value[i] with s = 2/(period+1). -/
theorem c7_calculate_ema_recurrence (data : List ℚ) (period i : Nat)
    (h1 : data ≠ []) (_h2 : 0 < period) (h3 : i + 1 < data.length) :
    (calculate_ema data period).length = data.length ∧
    (calculate_ema data period).getD 0 0 = data.getD 0 0 ∧
    (calculate_ema data period).getD (i + 1) 0 =
      smoothing period * data.getD (i + 1) 0 +
        (1 - smoothing period) * (calculate_ema data period).getD i 0 := by
  obtain ⟨x, xs, rfl⟩ := List.exists_cons_of_ne_nil h1
  refine ⟨calculate_ema_length _ _, by simp [calculate_ema], ?_⟩
  cases i with
  | zero =>
    cases xs with
    | nil => simp at h3
    | cons y ys => simp [calculate_ema, emaAux]
  | succ j =>
    have hj : j + 1 < xs.length := by simp at h3; omega
    simp only [calculate_ema, List.getD_cons_succ]
    exact emaAux_getD (smoothing period) xs x j hj

/-- C7 witness: the recurrence evaluated on the series [1, 2] with period 1
(smoothing factor 1) at index 1. -/
theorem c7_witness :
    (calculate_ema [1, 2] 1).length = ([1, 2] : List ℚ).length ∧
    (calculate_ema [1, 2] 1).getD 0 0 = ([1, 2] : List ℚ).getD 0 0 ∧
    (calculate_ema [1, 2] 1).getD (0 + 1) 0 =
      smoothing 1 * ([1, 2] : List ℚ).getD (0 + 1) 0 +
        (1 - smoothing 1) * (calculate_ema [1, 2] 1).getD 0 0 :=
  c7_calculate_ema_recurrence [1, 2] 1 0 (by simp) (by norm_num) (by simp)

/-! ### Claim C8: open_position -/

/-- C8: with fewer than MAX_POSITIONS open and a non-empty history (so the
swing low sw exists), open_position uses stop loss sw with fallback
entry_price*0.98 when sw is at or above the entry, take profit
entry + (entry - stop)*RISK_REWARD, and quantity
account_balance*risk_percent/|entry - stop|; it refuses (returning no
position and registering nothing) at MAX_POSITIONS, on a zero price distance
(which forces quantity 0) and on a non-positive quantity. -/
theorem c8_open_position_contract (positions : List Position)
    (entry_price account_balance risk_percent : ℚ) (lows : List ℚ) (t : ℤ)
    (sw sl tp q : ℚ)
    (hsw : find_swing_low lows 10 = some sw)
    (hsl : sl = if entry_price ≤ sw then entry_price * (98/100) else sw)
    (htp : tp = entry_price + (entry_price - sl) * RISK_REWARD)
    (hq : q = calculate_position_size entry_price sl account_balance
      risk_percent) :
    (MAX_POSITIONS ≤ positions.length →
      open_position positions entry_price account_balance risk_percent lows t
        = (none, positions)) ∧
    (positions.length < MAX_POSITIONS → q ≤ 0 →
      open_position positions entry_price account_balance risk_percent lows t
        = (none, positions)) ∧
    (positions.length < MAX_POSITIONS → 0 < q →
      open_position positions entry_price account_balance risk_percent lows t
        = (some (Position.mk0 entry_price q sl tp t),
           positions ++ [Position.mk0 entry_price q sl tp t])) ∧
    (|entry_price - sl| = 0 → q = 0) ∧
    (|entry_price - sl| ≠ 0 →
      q = account_balance * risk_percent / |entry_price - sl|) := by
  subst hsl htp hq
  refine ⟨fun h => ?_, fun h hq0 => ?_, fun h hq0 => ?_, fun h0 => ?_,
    fun hne => ?_⟩
  · simp [open_position, can_open_position, Nat.not_lt.mpr h]
  · simp [open_position, can_open_position, h, hsw, hq0]
  · simp [open_position, can_open_position, h, hsw, not_le.mpr hq0]
  · simp [calculate_position_size, h0]
  · simp [calculate_position_size, hne]

/-- C8 witness: an empty strategy opening at entry 100 with balance 10000,
risk 1%, over history lows [95, 96]: swing low 95, stop 95, take profit 110,
quantity 20. -/
theorem c8_witness :
    (MAX_POSITIONS ≤ ([] : List Position).length →
      open_position [] 100 10000 (1/100) [95, 96] 0 = (none, [])) ∧
    (([] : List Position).length < MAX_POSITIONS → (20:ℚ) ≤ 0 →
      open_position [] 100 10000 (1/100) [95, 96] 0 = (none, [])) ∧
    (([] : List Position).length < MAX_POSITIONS → (0:ℚ) < 20 →
      open_position [] 100 10000 (1/100) [95, 96] 0 =
        (some (Position.mk0 100 20 95 110 0),
         [] ++ [Position.mk0 100 20 95 110 0])) ∧
    (|(100:ℚ) - 95| = 0 → (20:ℚ) = 0) ∧
    (|(100:ℚ) - 95| ≠ 0 → (20:ℚ) = 10000 * (1/100) / |(100:ℚ) - 95|) :=
  c8_open_position_contract [] 100 10000 (1/100) [95, 96] 0 95 95 110 20
    (by norm_num [find_swing_low]) (by norm_num) (by norm_num [RISK_REWARD])
    (by norm_num [calculate_position_size])

/-! ### Claim C9: win rate and profit factor -/

/-- C9: on a non-empty trade log the win rate is winners/total*100 with a
winner being exactly a trade of strictly positive pnl, and the profit factor
is the sum of winning pnls over the absolute sum of losing-or-zero pnls, or 0
when that denominator is 0. -/
theorem c9_win_rate_profit_factor (trades_log : List ClosedTrade)
    (equity_curve : List ℚ) (current_balance initial_balance : ℚ)
    (h : trades_log ≠ []) :
    (calculate_performance_metrics trades_log equity_curve current_balance
        initial_balance).win_rate =
      (((trades_log.filter fun t => decide (0 < t.pnl)).length : ℚ) /
        (trades_log.length : ℚ)) * 100 ∧
    (|((trades_log.filter fun t => decide (t.pnl ≤ 0)).map
        ClosedTrade.pnl).sum| ≠ 0 →
      (calculate_performance_metrics trades_log equity_curve current_balance
          initial_balance).profit_factor =
        ((trades_log.filter fun t => decide (0 < t.pnl)).map
            ClosedTrade.pnl).sum /
          |((trades_log.filter fun t => decide (t.pnl ≤ 0)).map
              ClosedTrade.pnl).sum|) ∧
    (|((trades_log.filter fun t => decide (t.pnl ≤ 0)).map
        ClosedTrade.pnl).sum| = 0 →
      (calculate_performance_metrics trades_log equity_curve current_balance
          initial_balance).profit_factor = 0) := by
  have hni : trades_log.isEmpty = false := by
    simpa [List.isEmpty_iff] using h
  have hl : 0 < trades_log.length := List.length_pos.mpr h
  refine ⟨?_, fun hne => ?_, fun h0 => ?_⟩
  · simp [calculate_performance_metrics, hni, hl]
  · have hpos : 0 < |((trades_log.filter fun t => decide (t.pnl ≤ 0)).map
        ClosedTrade.pnl).sum| := lt_of_le_of_ne (abs_nonneg _) (Ne.symm hne)
    simp [calculate_performance_metrics, hni, hpos]
  · simp [calculate_performance_metrics, hni, h0]

/-- A two-trade log: one winner of pnl 10, one loser of pnl -5. -/
def c9_log : List ClosedTrade :=
  [⟨100, 110, 1, 10, 10, 0, 1, "Take Profit"⟩,
   ⟨100, 95, 1, -5, -5, 0, 2, "Stop Loss"⟩]

/-- C9 witness: on the two-trade log the theorem gives win rate 50 and profit
factor 2. -/
theorem c9_witness :
    (calculate_performance_metrics c9_log [] 10005 10000).win_rate =
      (((c9_log.filter fun t => decide (0 < t.pnl)).length : ℚ) /
        (c9_log.length : ℚ)) * 100 ∧
    (|((c9_log.filter fun t => decide (t.pnl ≤ 0)).map
        ClosedTrade.pnl).sum| ≠ 0 →
      (calculate_performance_metrics c9_log [] 10005 10000).profit_factor =
        ((c9_log.filter fun t => decide (0 < t.pnl)).map
            ClosedTrade.pnl).sum /
          |((c9_log.filter fun t => decide (t.pnl ≤ 0)).map
              ClosedTrade.pnl).sum|) ∧
    (|((c9_log.filter fun t => decide (t.pnl ≤ 0)).map
        ClosedTrade.pnl).sum| = 0 →
      (calculate_performance_metrics c9_log [] 10005 10000).profit_factor
        = 0) :=
  c9_win_rate_profit_factor c9_log [] 10005 10000 (by simp [c9_log])

/-! ### Claim C10: equity curve and drawdown ignore the forced closures -/

lemma runTick_equity_length (data : List CandleE) (today : ℤ)
    (st st1 : BTState) (i : Nat) (h : runTick data today st i = some st1) :
    st1.equity_curve.length = st.equity_curve.length + 1 := by
  simp only [runTick] at h
  split at h
  · exact absurd h (by simp)
  · split at h
    · exact absurd h (by simp)
    · injection h with h
      subst h
      simp

lemma runLoopAux_equity_length (data : List CandleE) (today : ℤ) :
    ∀ (l : List Nat) (st st1 : BTState),
      runLoopAux data today st l = some st1 →
      st1.equity_curve.length = st.equity_curve.length + l.length := by
  intro l
  induction l with
  | nil =>
    intro st st1 h
    simp only [runLoopAux] at h
    injection h with h
    subst h
    simp
  | cons i is ih =>
    intro st st1 h
    simp only [runLoopAux] at h
    split at h
    · exact absurd h (by simp)
    · rename_i st2 hg
      have e1 := runTick_equity_length data today st st2 i hg
      have e2 := ih st2 st1 h
      simp only [List.length_cons]
      omega

lemma zipE_length :
    ∀ (a : List Candle) (b c : List ℚ), b.length = a.length →
      c.length = a.length → (zipE a b c).length = a.length := by
  intro a
  induction a with
  | nil => intro b c _ _; simp [zipE]
  | cons x xs ih =>
    intro b c h1 h2
    cases b with
    | nil => simp at h1
    | cons y ys =>
      cases c with
      | nil => simp at h2
      | cons z zs =>
        simp only [zipE, List.length_cons]
        rw [ih ys zs (by simpa using h1) (by simpa using h2)]

lemma add_emas_length (data : List Candle) :
    (add_emas data).length = data.length := by
  unfold add_emas
  rw [zipE_length data _ _ (by simp [calculate_ema_length])
    (by simp [calculate_ema_length])]

/-- C10: when the loop of Backtester.run produces state st and the epilogue
turns it into the final result res, the equity curve of st holds exactly one
entry per candle, finalize hands it over unchanged (the forced "Backtest End"
closures never touch it), and the reported max_drawdown is computed from that
pre-closure equity curve (it is the literal 0 of the empty-log metrics when
no trade was ever closed). -/
theorem c10_equity_and_drawdown (data : List Candle) (initial_balance : ℚ)
    (today : ℤ) (st : BTState) (res : FinalResult)
    (_hne : data ≠ [])
    (hloop : runLoop (add_emas data) initial_balance today = some st)
    (hfin : finalize (add_emas data) initial_balance today st = some res) :
    st.equity_curve.length = data.length ∧
    res.equity_curve = st.equity_curve ∧
    (res.trades_log ≠ [] →
      res.metrics.max_drawdown = calculate_max_drawdown st.equity_curve) ∧
    (res.trades_log = [] → res.metrics.max_drawdown = 0) := by
  have hlen : st.equity_curve.length = data.length := by
    unfold runLoop at hloop
    have h1 := runLoopAux_equity_length (add_emas data) today
      (List.range (add_emas data).length) _ st hloop
    simpa [List.length_range, add_emas_length] using h1
  refine ⟨hlen, ?_⟩
  unfold finalize at hfin
  split at hfin
  · exact absurd hfin (by simp)
  · rename_i last hlast
    cases hc : closeRemaining last.close last.timestamp today st.rm
        st.trades_log st.positions with
    | none => rw [hc] at hfin; exact absurd hfin (by simp)
    | some pr =>
      rw [hc] at hfin
      injection hfin with hfin
      subst hfin
      refine ⟨rfl, fun hnl => ?_, fun hl => ?_⟩
      · have hni : pr.2.isEmpty = false := by
          simpa [List.isEmpty_iff] using hnl
        simp [calculate_performance_metrics, hni]
      · have hni : pr.2.isEmpty = true := by
          simpa [List.isEmpty_iff] using hl
        simp [calculate_performance_metrics, hni]

/-- The single input candle of the C10 witness run. -/
def c10_candle : Candle := ⟨0, 99, 100⟩

/-- The loop state after the one tick of the C10 witness run: no positions,
no trades, one equity entry, untouched risk manager. -/
def c10_st : BTState := ⟨[], [], [10000], RiskManager.init 10000 0⟩

/-- The final result of the C10 witness run: empty-log metrics. -/
def c10_res : FinalResult :=
  ⟨⟨0, 0, 0, 0, 0, 0, 10000, 10000, 0, 0, 0, 0⟩, [10000], [],
   RiskManager.init 10000 0⟩

/-- C10 witness: a one-candle backtest yields a one-entry equity curve,
finalize preserves it, and the empty trade log reports drawdown 0. -/
theorem c10_witness :
    c10_st.equity_curve.length = [c10_candle].length ∧
    c10_res.equity_curve = c10_st.equity_curve ∧
    (c10_res.trades_log ≠ [] →
      c10_res.metrics.max_drawdown =
        calculate_max_drawdown c10_st.equity_curve) ∧
    (c10_res.trades_log = [] → c10_res.metrics.max_drawdown = 0) :=
  c10_equity_and_drawdown [c10_candle] 10000 0 c10_st c10_res (by simp)
    (by norm_num [runLoop, runLoopAux, runTick, add_emas, zipE, calculate_ema,
      smoothing, c10_candle, c10_st, update_positions, settleClosed,
      RiskManager.init, RiskManager.can_trade, EMA_SHORT, EMA_LONG,
      check_entry_signal, List.range_succ])
    (by norm_num [finalize, add_emas, zipE, calculate_ema, smoothing,
      c10_candle, c10_st, c10_res, closeRemaining,
      calculate_performance_metrics, RiskManager.init])

end TradingBot
